/-
Verification of the detection-and-evidence pipeline of aws-incident-copilot.

Shallow embedding of the core Python modules:
  * copilot/Incidents/__init__.py  — the `Incident` record (pydantic model)
  * copilot/config.py              — the `Settings` value object
  * copilot/detectors/__init__.py  — the detectors and `run_all_detectors`
  * copilot/evidence.py            — `EvidenceCollector.collect_for_incident`
  * copilot/sources/cloudwatch.py  — the catch-to-empty source boundary
  * copilot/cli.py                 — the `monitor` scan outcome shape

Modelling conventions:
  * Python floats are modelled as ℚ (all the decision logic is order
    comparisons and exact sums, no rounding-sensitive arithmetic);
  * non-negative integer configuration fields are modelled as ℕ, so Python's
    floor division `//` on them is `Nat.div`;
  * a CloudWatch datapoint dict is a record of optional statistics, with
    `m.get(k, 0)` modelled as `Option.getD · 0`;
  * network fetches are modelled by passing the fetched data in explicitly;
    the transport boundary (try/except around boto3 calls) is modelled with
    `Except` values resolved by `catchToEmpty`;
  * file writes performed by the evidence collector are effects outside the
    embedding; the embedded `collect_for_incident` returns the mapping
    (filename → path) that the Python function returns, in insertion order
    (Python dicts preserve insertion order).
-/
import Mathlib

/-- A CloudWatch metric datapoint, from `copilot/sources/cloudwatch.py`:
a dict that may carry the statistics "Maximum", "Average", "Sum".
`m.get("Maximum", 0)` is modelled as `maximum.getD 0`, etc. -/
structure Datapoint where
  maximum : Option ℚ
  average : Option ℚ
  sum : Option ℚ
deriving DecidableEq, Repr

/-- The configuration value object from `copilot/config.py` (`Settings`),
restricted to the fields the detection/evidence core reads.  Defaults are
the defaults of `config.py`. -/
structure Settings where
  aws_region : String := "us-east-1"
  ec2_cpu_threshold : ℚ := 95
  ec2_cpu_duration_minutes : ℕ := 10
  lambda_error_threshold : ℕ := 5
  lambda_timeout_threshold_ms : ℕ := 25000
  bedrock_token_threshold : ℕ := 100000
  bedrock_token_window_minutes : ℕ := 60
  lookback_minutes : ℕ := 60
  evidence_output_dir : String := "./evidence"
  max_evidence_age_days : ℕ := 30
deriving Repr

/-- The incident record from `copilot/Incidents/__init__.py` (pydantic
`Incident` model): all fields are strings except the evidence-file list. -/
structure Incident where
  id : String
  title : String
  severity : String
  resource : String
  description : String
  suggested_fix : String
  evidence_files : List String := []
deriving DecidableEq, Repr

/-- Python's `max` over a list of values; only ever applied to non-empty
lists in the source (the `[]` case is unreachable there and defaults to 0,
matching the `max_duration = 0` initialisation in the Lambda detector). -/
def listMax : List ℚ → ℚ
  | [] => 0
  | x :: xs => xs.foldl max x

/-- Models Python's fixed-point formatting `f"{x:.1f}"` on the embedded
rationals (one fractional digit, rounded to nearest). -/
def fmtFixed1 (q : ℚ) : String :=
  let n : ℤ := round (10 * q)
  (if n < 0 then "-" else "") ++ toString (n.natAbs / 10) ++ "." ++ toString (n.natAbs % 10)

/-- Models Python's `f"{x:.0f}"` formatting (round to integer). -/
def fmtFixed0 (q : ℚ) : String :=
  toString (round q : ℤ)

/-- The incident record built inside the instance loop of
`EC2CPUSpikeDetector.detect` (`copilot/detectors/__init__.py`,
lines 63–88): `max_cpu` and `avg_cpu` are computed over the whole fetched
series with `m.get(..., 0)` defaults. -/
def ec2Incident (s : Settings) (instance_id : String) (metrics : List Datapoint) : Incident :=
  let max_cpu := listMax (metrics.map (fun m => m.maximum.getD 0))
  let avg_cpu := (metrics.map (fun m => m.average.getD 0)).sum / (metrics.length : ℚ)
  { id := "ec2-cpu-spike-" ++ instance_id
    title := "EC2 CPU Spike on " ++ instance_id
    severity := if 98 < max_cpu then "HIGH" else "MEDIUM"
    resource := instance_id
    description :=
      "Instance " ++ instance_id ++ " has sustained CPU usage above " ++
      toString s.ec2_cpu_threshold ++ "% for over " ++
      toString s.ec2_cpu_duration_minutes ++ " minutes. " ++
      "Max CPU: " ++ fmtFixed1 max_cpu ++ "%, Avg CPU: " ++ fmtFixed1 avg_cpu ++ "%"
    suggested_fix :=
      "1. Check running processes with 'top' or 'htop'\n" ++
      "2. Consider right-sizing instance type\n" ++
      "3. Review application logs for performance issues\n" ++
      "4. Set up Auto Scaling if load is variable"
    evidence_files :=
      ["cloudwatch-metrics-" ++ instance_id ++ ".json",
       "ec2-instance-details-" ++ instance_id ++ ".json"] }

/-- The emission condition of `EC2CPUSpikeDetector.detect` for one
instance: `metrics` non-empty and the count/threshold test passes;
`ec2Incident` above is the appended record (lines 66–89). -/
def ec2CheckInstance (s : Settings) (instance_id : String) (metrics : List Datapoint) :
    List Incident :=
  if metrics.isEmpty then []
  else
    let high_cpu_count := metrics.countP (fun m => decide (s.ec2_cpu_threshold < m.maximum.getD 0))
    let required_datapoints := s.ec2_cpu_duration_minutes / 5
    if required_datapoints ≤ high_cpu_count then [ec2Incident s instance_id metrics]
    else []

/-- A resource entry of a CloudTrail event (`event["resources"][i]`):
a dict that may carry "ResourceName"; `r.get("ResourceName", "unknown")`
is modelled as `resourceName.getD "unknown"`. -/
structure TrailResource where
  resourceName : Option String
deriving DecidableEq, Repr

/-- An S3 access-denied CloudTrail event as consumed by
`S3AccessDeniedDetector.detect`: `event.get("resources", [])` and
`event.get("username", "unknown")`. -/
structure S3Event where
  resources : List TrailResource
  username : Option String
deriving DecidableEq, Repr

/-- The data the detectors pull from the CloudWatch/CloudTrail sources,
passed in explicitly (each field is the return value of the corresponding
source method for a given query argument). -/
structure SourceData where
  instances : List String
  cpuMetrics : String → List Datapoint
  functions : List String
  lambdaErrors : String → List Datapoint
  lambdaDurations : String → List Datapoint
  bedrockTokens : String → List Datapoint
  bedrockInvocations : String → List Datapoint
  s3Events : List S3Event

/-- Embedding of `EC2CPUSpikeDetector.detect` (`copilot/detectors/__init__.py`,
lines 36–91): loop over all instances, appending each instance's
incidents. -/
def EC2CPUSpikeDetector.detect (s : Settings) (d : SourceData) : List Incident :=
  d.instances.flatMap (fun instance_id => ec2CheckInstance s instance_id (d.cpuMetrics instance_id))

/-- The `max_duration` computation of `LambdaErrorDetector.detect`
(lines 124–126): 0 when the duration series is empty, else Python's `max`
of the "Maximum" statistics. -/
def lambdaMaxDuration (duration_metrics : List Datapoint) : ℚ :=
  if duration_metrics.isEmpty then 0
  else listMax (duration_metrics.map (fun m => m.maximum.getD 0))

/-- The incident record built inside the function loop of
`LambdaErrorDetector.detect` (`copilot/detectors/__init__.py`,
lines 124–156): `max_duration` starts at 0 and is only updated when the
duration series is non-empty; severity and the timeout warning flip
together on `max_duration > timeout_threshold_ms`. -/
def lambdaIncident (s : Settings) (function_name : String)
    (error_metrics duration_metrics : List Datapoint) : Incident :=
  let total_errors := (error_metrics.map (fun m => m.sum.getD 0)).sum
  let max_duration := lambdaMaxDuration duration_metrics
  let timeout_warning :=
    if (s.lambda_timeout_threshold_ms : ℚ) < max_duration then
      " Function is also experiencing long execution times (max: " ++
        fmtFixed0 max_duration ++ "ms)."
    else ""
  { id := "lambda-errors-" ++ function_name
    title := "Lambda Errors: " ++ function_name
    severity :=
      if (s.lambda_timeout_threshold_ms : ℚ) < max_duration then "HIGH" else "MEDIUM"
    resource := "function:" ++ function_name
    description :=
      "Function '" ++ function_name ++ "' has " ++ fmtFixed0 total_errors ++
      " errors in the last " ++ toString s.lookback_minutes ++ " minutes." ++
      timeout_warning
    suggested_fix :=
      "1. Check CloudWatch Logs for error stack traces\n" ++
      "2. Review recent code deployments\n" ++
      "3. Verify function configuration (memory, timeout)\n" ++
      "4. Check for dependency or permission issues"
    evidence_files :=
      ["lambda-error-metrics-" ++ function_name ++ ".json",
       "lambda-logs-" ++ function_name ++ ".txt"] }

/-- One iteration of the function loop of `LambdaErrorDetector.detect`
(`copilot/detectors/__init__.py`, lines 106–156): given the error series
and duration series fetched for `function_name`, produce the (zero or one)
incidents appended for that function.  The duration fetch only happens
inside the threshold branch in the source; since the fetch is pure data
here, passing it as an argument is equivalent. -/
def lambdaCheckFunction (s : Settings) (function_name : String)
    (error_metrics duration_metrics : List Datapoint) : List Incident :=
  if error_metrics.isEmpty then []
  else
    let total_errors := (error_metrics.map (fun m => m.sum.getD 0)).sum
    if (s.lambda_error_threshold : ℚ) ≤ total_errors then
      [lambdaIncident s function_name error_metrics duration_metrics]
    else []

/-- Embedding of `LambdaErrorDetector.detect` (`copilot/detectors/__init__.py`,
lines 97–158). -/
def LambdaErrorDetector.detect (s : Settings) (d : SourceData) : List Incident :=
  d.functions.flatMap (fun function_name =>
    lambdaCheckFunction s function_name (d.lambdaErrors function_name)
      (d.lambdaDurations function_name))

/-- The hard-coded Bedrock model roster of `BedrockTokenUsageDetector.detect`
(`copilot/detectors/__init__.py`, lines 172–177). -/
def bedrockModelIds : List String :=
  ["anthropic.claude-3-sonnet-20240229-v1:0",
   "anthropic.claude-3-haiku-20240307-v1:0",
   "anthropic.claude-v2:1",
   "amazon.titan-text-express-v1"]

/-- The incident record built inside the model loop of
`BedrockTokenUsageDetector.detect` (`copilot/detectors/__init__.py`,
lines 191–225): the id replaces `:` and `.` in the model id with `-`. -/
def bedrockIncident (s : Settings) (model_id : String)
    (token_metrics invocation_metrics : List Datapoint) : Incident :=
  let total_tokens := (token_metrics.map (fun m => m.sum.getD 0)).sum
  let total_invocations := (invocation_metrics.map (fun m => m.sum.getD 0)).sum
  let avg_tokens_per_call :=
    if 0 < total_invocations then total_tokens / total_invocations else 0
  { id := "bedrock-token-usage-" ++ ((model_id.replace ":" "-").replace "." "-")
    title := "Excessive Bedrock Token Usage: " ++ model_id
    severity := "HIGH"
    resource := "model:" ++ model_id
    description :=
      "Model '" ++ model_id ++ "' has consumed " ++ fmtFixed0 total_tokens ++
      " tokens in the last " ++ toString s.bedrock_token_window_minutes ++
      " minutes. Total invocations: " ++ fmtFixed0 total_invocations ++
      ", Avg tokens/call: " ++ fmtFixed0 avg_tokens_per_call
    suggested_fix :=
      "1. Review application logic for unnecessary API calls\n" ++
      "2. Check for retry loops or error conditions\n" ++
      "3. Consider implementing caching for common requests\n" ++
      "4. Review prompt engineering to reduce token usage\n" ++
      "5. Set up CloudWatch alarms for token thresholds"
    evidence_files :=
      ["bedrock-token-metrics-" ++ model_id.replace ":" "-" ++ ".json",
       "bedrock-invocation-metrics-" ++ model_id.replace ":" "-" ++ ".json"] }

/-- One iteration of the model loop of `BedrockTokenUsageDetector.detect`
(`copilot/detectors/__init__.py`, lines 179–225). -/
def bedrockCheckModel (s : Settings) (model_id : String)
    (token_metrics invocation_metrics : List Datapoint) : List Incident :=
  if token_metrics.isEmpty then []
  else
    let total_tokens := (token_metrics.map (fun m => m.sum.getD 0)).sum
    if (s.bedrock_token_threshold : ℚ) ≤ total_tokens then
      [bedrockIncident s model_id token_metrics invocation_metrics]
    else []

/-- Embedding of `BedrockTokenUsageDetector.detect` (`copilot/detectors/__init__.py`,
lines 164–227). -/
def BedrockTokenUsageDetector.detect (s : Settings) (d : SourceData) : List Incident :=
  bedrockModelIds.flatMap (fun model_id =>
    bedrockCheckModel s model_id (d.bedrockTokens model_id) (d.bedrockInvocations model_id))

/-- Insert an event into the `resource_errors` grouping dict of
`S3AccessDeniedDetector.detect` (lines 245–252), modelled as an association
list in key-insertion order (Python dicts preserve insertion order). -/
def insertEvent (groups : List (String × List S3Event)) (name : String) (e : S3Event) :
    List (String × List S3Event) :=
  match groups with
  | [] => [(name, [e])]
  | (k, evs) :: rest =>
      if k = name then (k, evs ++ [e]) :: rest
      else (k, evs) :: insertEvent rest name e

/-- The grouping loop of `S3AccessDeniedDetector.detect` (lines 245–252):
for each event, for each of its resources, append the event under the
resource's name (default "unknown"). -/
def groupByResource (events : List S3Event) : List (String × List S3Event) :=
  events.foldl
    (fun groups e =>
      e.resources.foldl
        (fun groups r => insertEvent groups (r.resourceName.getD "unknown") e)
        groups)
    []

/-- Python's `', '.join(...)` of the de-duplicated usernames; the source
iterates a `set`, whose order is implementation-defined — first-occurrence
order is used here (only the description text depends on it). -/
def joinUsernames (events : List S3Event) : String :=
  String.intercalate ", " ((events.map (fun e => e.username.getD "unknown")).dedup)

/-- The incident record built inside the per-resource loop of
`S3AccessDeniedDetector.detect` (`copilot/detectors/__init__.py`,
lines 258–280): the id sanitizes the resource name by replacing `:` and
`/` with `-` and slicing to the first 50 characters. -/
def s3Incident (s : Settings) (resource_name : String) (events : List S3Event) : Incident :=
  { id := "s3-access-denied-" ++
      (((resource_name.replace ":" "-").replace "/" "-").take 50)
    title := "S3 Access Denied: " ++ resource_name
    severity := "HIGH"
    resource := resource_name
    description :=
      "S3 resource '" ++ resource_name ++ "' has " ++ toString events.length ++
      " access denied error(s) in the last " ++ toString s.lookback_minutes ++
      " minutes. Affected users: " ++ joinUsernames events
    suggested_fix :=
      "1. Review S3 bucket policy for required permissions\n" ++
      "2. Check IAM role/user permissions for s3:GetObject\n" ++
      "3. Verify bucket ACLs and Block Public Access settings\n" ++
      "4. Ensure correct AWS account is being used"
    evidence_files :=
      ["cloudtrail-s3-access-denied-" ++ (resource_name.replace ":" "-").take 30 ++ ".json",
       "s3-bucket-policy-" ++
         (((resource_name.splitOn ":::").getLastD resource_name).splitOn "/").headD "" ++
         ".json"] }

/-- One iteration of the per-resource loop of `S3AccessDeniedDetector.detect`
(`copilot/detectors/__init__.py`, lines 254–280). -/
def s3CheckResource (s : Settings) (resource_name : String) (events : List S3Event) :
    List Incident :=
  if 1 ≤ events.length then [s3Incident s resource_name events]
  else []

/-- Embedding of `S3AccessDeniedDetector.detect` (`copilot/detectors/__init__.py`,
lines 233–282). -/
def S3AccessDeniedDetector.detect (s : Settings) (d : SourceData) : List Incident :=
  (groupByResource d.s3Events).flatMap (fun g => s3CheckResource s g.1 g.2)

/-- Embedding of `DynamoDBThrottleDetector.detect` (`copilot/detectors/__init__.py`,
lines 288–297): the documented placeholder that always returns no
incidents. -/
def DynamoDBThrottleDetector.detect : List Incident := []

/-- The try/except accumulation loop of `run_all_detectors`
(`copilot/detectors/__init__.py`, lines 320–328): each detector execution
either returns a list of incidents (`Except.ok`) or raises
(`Except.error`, the message being what would be logged); a raising
detector is logged and skipped, the others' incidents are concatenated in
order. -/
def runDetectorBatch (results : List (Except String (List Incident))) : List Incident :=
  results.foldl
    (fun all_incidents r =>
      match r with
      | Except.ok incidents => all_incidents ++ incidents
      | Except.error _ => all_incidents)
    []

/-- Python's substring test `pat in s` on character lists: `pat` occurs
contiguously somewhere in the list. -/
def infixOf (pat : List Char) : List Char → Bool
  | [] => pat.isEmpty
  | c :: cs => pat.isPrefixOf (c :: cs) || infixOf pat cs

/-- Python's `pat in s` on strings, as used by the dispatch of
`EvidenceCollector.collect_for_incident` (`copilot/evidence.py`,
lines 48–57): substring containment, not prefix matching. -/
def strIn (pat s : String) : Bool := infixOf pat.data s.data

/-- A (filename, path) entry of an evidence mapping: the Python code writes
the file at `dir / name` and records `evidence[name] = str(dir / name)`. -/
def evidenceEntry (dir name : String) : String × String := (name, dir ++ "/" ++ name)

/-- Embedding of `EvidenceCollector._collect_ec2_evidence` (`copilot/evidence.py`,
lines 67–92): writes the re-fetched CPU series for the incident's resource
as one JSON file; the mapping gains that single entry.  (File contents are
I/O effects outside the embedding; the returned mapping does not depend on
the fetched data.) -/
def collectEC2Evidence (dir : String) (inc : Incident) : List (String × String) :=
  [evidenceEntry dir ("cloudwatch-metrics-" ++ inc.resource ++ ".json")]

/-- Embedding of `EvidenceCollector._collect_lambda_evidence` (`copilot/evidence.py`,
lines 94–129): error series and duration series, two entries. -/
def collectLambdaEvidence (dir : String) (inc : Incident) : List (String × String) :=
  let function_name := inc.resource.replace "function:" ""
  [evidenceEntry dir ("lambda-error-metrics-" ++ function_name ++ ".json"),
   evidenceEntry dir ("lambda-duration-metrics-" ++ function_name ++ ".json")]

/-- Embedding of `EvidenceCollector._collect_bedrock_evidence` (`copilot/evidence.py`,
lines 131–171): token series and invocation series, two entries. -/
def collectBedrockEvidence (dir : String) (inc : Incident) : List (String × String) :=
  let model_id := inc.resource.replace "model:" ""
  let safe_model_id := (model_id.replace ":" "-").replace "." "-"
  [evidenceEntry dir ("bedrock-token-metrics-" ++ safe_model_id ++ ".json"),
   evidenceEntry dir ("bedrock-invocation-metrics-" ++ safe_model_id ++ ".json")]

/-- Embedding of `EvidenceCollector._collect_s3_evidence` (`copilot/evidence.py`,
lines 173–212): the filtered denied-event list, one entry. -/
def collectS3Evidence (dir : String) (inc : Incident) : List (String × String) :=
  let safe_resource_name := ((inc.resource.replace ":" "-").replace "/" "-").take 30
  [evidenceEntry dir ("cloudtrail-s3-access-denied-" ++ safe_resource_name ++ ".json")]

/-- Embedding of `EvidenceCollector.collect_for_incident` (`copilot/evidence.py`,
lines 34–65): dispatch on `slug in incident.id` (Python `in`, i.e.
substring containment) to a rule-specific branch, then always append the
`incident.json` snapshot entry last.  The returned association list is the
returned dict in insertion order. -/
def collect_for_incident (output_dir : String) (inc : Incident) : List (String × String) :=
  let incident_dir := output_dir ++ "/" ++ inc.id
  let evidence_paths :=
    if strIn "ec2-cpu-spike" inc.id then collectEC2Evidence incident_dir inc
    else if strIn "lambda-errors" inc.id then collectLambdaEvidence incident_dir inc
    else if strIn "bedrock-token-usage" inc.id then collectBedrockEvidence incident_dir inc
    else if strIn "s3-access-denied" inc.id then collectS3Evidence incident_dir inc
    else []
  evidence_paths ++ [evidenceEntry incident_dir "incident.json"]

/-- The exceptions caught at the source boundary
(`copilot/sources/cloudwatch.py` / `cloudtrail.py`:
`except (ClientError, NoCredentialsError)`); `ClientError` covers
authentication / authorization / rate-limit / connectivity failures raised
by a boto3 call, `NoCredentialsError` missing credentials. -/
inductive AwsError
  | clientError (msg : String)
  | noCredentials
deriving DecidableEq, Repr

/-- The uniform catch shape of every source getter
(`copilot/sources/cloudwatch.py`, e.g. lines 41–58, and
`cloudtrail.py` lines 44–71): a successful call returns its data, a caught
`ClientError`/`NoCredentialsError` is logged and becomes the empty list. -/
def catchToEmpty {α : Type} : Except AwsError (List α) → List α
  | Except.ok xs => xs
  | Except.error _ => []

/-- Embedding of `CloudWatchSource.get_ec2_cpu_metrics` (`copilot/sources/cloudwatch.py`,
lines 29–58): the boto3 round trip is modelled by its outcome `response`;
the sorting of datapoints by timestamp is order-preserving on the embedded
data and every remaining getter of the two source classes has this exact
catch-to-empty shape. -/
def CloudWatchSource.get_ec2_cpu_metrics (response : Except AwsError (List Datapoint)) :
    List Datapoint :=
  catchToEmpty response

/-- The outcomes of the boto3 calls a scan performs, one field per source
method (each application models one network round trip). -/
structure TransportData where
  instances : Except AwsError (List String)
  cpuMetrics : String → Except AwsError (List Datapoint)
  functions : Except AwsError (List String)
  lambdaErrors : String → Except AwsError (List Datapoint)
  lambdaDurations : String → Except AwsError (List Datapoint)
  bedrockTokens : String → Except AwsError (List Datapoint)
  bedrockInvocations : String → Except AwsError (List Datapoint)
  s3Events : Except AwsError (List S3Event)

/-- Apply the per-getter catch-to-empty boundary to every source call: this
is the data the detectors actually see. -/
def resolveSources (t : TransportData) : SourceData :=
  { instances := catchToEmpty t.instances
    cpuMetrics := fun i => catchToEmpty (t.cpuMetrics i)
    functions := catchToEmpty t.functions
    lambdaErrors := fun f => catchToEmpty (t.lambdaErrors f)
    lambdaDurations := fun f => catchToEmpty (t.lambdaDurations f)
    bedrockTokens := fun m => catchToEmpty (t.bedrockTokens m)
    bedrockInvocations := fun m => catchToEmpty (t.bedrockInvocations m)
    s3Events := catchToEmpty t.s3Events }

/-- A transport in which every boto3 call fails with the same error
(e.g. `NoCredentialsError` on every call: expired or absent credentials). -/
def constFailTransport (e : AwsError) : TransportData :=
  { instances := Except.error e
    cpuMetrics := fun _ => Except.error e
    functions := Except.error e
    lambdaErrors := fun _ => Except.error e
    lambdaDurations := fun _ => Except.error e
    bedrockTokens := fun _ => Except.error e
    bedrockInvocations := fun _ => Except.error e
    s3Events := Except.error e }

/-- A transport in which every call succeeds with no data (a healthy,
quiet account). -/
def emptyTransport : TransportData :=
  { instances := Except.ok []
    cpuMetrics := fun _ => Except.ok []
    functions := Except.ok []
    lambdaErrors := fun _ => Except.ok []
    lambdaDurations := fun _ => Except.ok []
    bedrockTokens := fun _ => Except.ok []
    bedrockInvocations := fun _ => Except.ok []
    s3Events := Except.ok [] }

/-- The user-visible outcome of one `monitor` scan (`copilot/cli.py`):
either the CLI aborts with `typer.Exit(1)` (client construction failed) or
the scan completes with a list of incidents (possibly empty). -/
inductive ScanOutcome
  | exitError (code : ℕ)
  | incidents (incs : List Incident)
deriving DecidableEq, Repr

/-- Embedding of `run_all_detectors` (`copilot/detectors/__init__.py`, lines 300–328)
on the fixed five-detector roster; the embedded detectors are pure, so
each executes without raising. -/
def run_all_detectors (s : Settings) (d : SourceData) : List Incident :=
  runDetectorBatch
    [Except.ok (EC2CPUSpikeDetector.detect s d),
     Except.ok (LambdaErrorDetector.detect s d),
     Except.ok (BedrockTokenUsageDetector.detect s d),
     Except.ok (S3AccessDeniedDetector.detect s d),
     Except.ok DynamoDBThrottleDetector.detect]

/-- The `monitor` command's scan path (`copilot/cli.py`, lines 118–148 and
`scan_for_incidents`): constructing the AWS clients is wrapped in
try/except and failure raises `typer.Exit(1)` — the only distinguishable
failure outcome; otherwise `run_all_detectors` runs against the
catch-to-empty-resolved sources and its list is the outcome. -/
def monitorScan (clientInit : Except String Unit) (s : Settings) (t : TransportData) :
    ScanOutcome :=
  match clientInit with
  | Except.error _ => ScanOutcome.exitError 1
  | Except.ok _ => ScanOutcome.incidents (run_all_detectors s (resolveSources t))

lemma runDetectorBatch_foldl (results : List (Except String (List Incident)))
    (acc : List Incident) :
    results.foldl
      (fun all_incidents r =>
        match r with
        | Except.ok incidents => all_incidents ++ incidents
        | Except.error _ => all_incidents) acc = acc ++ runDetectorBatch results := by
  induction results generalizing acc with
  | nil => simp [runDetectorBatch]
  | cons r rs ih =>
    cases r with
    | ok l =>
      simp only [runDetectorBatch, List.foldl_cons]
      rw [ih, ih]
      simp
    | error e =>
      simp only [runDetectorBatch, List.foldl_cons]
      rw [ih, ih]
      simp

lemma runDetectorBatch_cons_ok (l : List Incident)
    (rs : List (Except String (List Incident))) :
    runDetectorBatch (Except.ok l :: rs) = l ++ runDetectorBatch rs := by
  simp only [runDetectorBatch, List.foldl_cons]
  rw [runDetectorBatch_foldl]
  simp [runDetectorBatch]

lemma runDetectorBatch_cons_error (e : String)
    (rs : List (Except String (List Incident))) :
    runDetectorBatch (Except.error e :: rs) = runDetectorBatch rs := by
  simp only [runDetectorBatch, List.foldl_cons]

lemma runDetectorBatch_append (a b : List (Except String (List Incident))) :
    runDetectorBatch (a ++ b) = runDetectorBatch a ++ runDetectorBatch b := by
  induction a with
  | nil => simp [runDetectorBatch]
  | cons r rs ih =>
    cases r with
    | ok l => simp [runDetectorBatch_cons_ok, ih]
    | error e => simp [runDetectorBatch_cons_error, ih]

/-- C1: the orchestrator loop of `run_all_detectors` executes the detector
list in sequence and catches a raising detector: the raising detector
contributes zero incidents, and the returned batch is exactly the
concatenation of the incidents of the remaining detectors — the batch is
never aborted by one detector's failure. -/
theorem runAllDetectors_isolates_failures
    (pre post : List (Except String (List Incident))) (e : String) :
    runDetectorBatch (pre ++ Except.error e :: post) =
      runDetectorBatch pre ++ runDetectorBatch post ∧
    runDetectorBatch (pre ++ Except.error e :: post) =
      runDetectorBatch (pre ++ post) := by
  constructor <;>
    simp [runDetectorBatch_append, runDetectorBatch_cons_error]

lemma ec2CheckInstance_length (s : Settings) (instance_id : String)
    (metrics : List Datapoint) (hm : metrics ≠ []) :
    (ec2CheckInstance s instance_id metrics).length = 1 ↔
      s.ec2_cpu_duration_minutes / 5 ≤
        metrics.countP (fun m => decide (s.ec2_cpu_threshold < m.maximum.getD 0)) := by
  unfold ec2CheckInstance
  rw [if_neg (by simpa using hm)]
  by_cases hc : s.ec2_cpu_duration_minutes / 5 ≤
      metrics.countP (fun m => decide (s.ec2_cpu_threshold < m.maximum.getD 0)) <;>
    simp [hc]

/-- C2: for a non-empty CPU series, the EC2 detector emits exactly one
incident iff the number of datapoints whose Maximum strictly exceeds
`ec2_cpu_threshold` is at least `ec2_cpu_duration_minutes // 5` (the
boundary is inclusive); an instance with zero datapoints is skipped. -/
theorem ec2_count_boundary (s : Settings) (instance_id : String)
    (metrics : List Datapoint) :
    (metrics ≠ [] →
      ((ec2CheckInstance s instance_id metrics).length = 1 ↔
        s.ec2_cpu_duration_minutes / 5 ≤
          metrics.countP (fun m => decide (s.ec2_cpu_threshold < m.maximum.getD 0)))) ∧
    ec2CheckInstance s instance_id [] = [] :=
  ⟨fun hm => ec2CheckInstance_length s instance_id metrics hm, rfl⟩

/-- The end-to-end scenario data of §8 of the spec: Maximum = 99, 99, 99,
Average = 90, 91, 92, against the default settings (threshold 95.0,
duration 10 minutes). -/
def wMetrics : List Datapoint :=
  [⟨some 99, some 90, none⟩, ⟨some 99, some 91, none⟩, ⟨some 99, some 92, none⟩]

def wSettings : Settings := {}

theorem ec2_count_boundary_witness :
    wMetrics ≠ [] ∧
    ((ec2CheckInstance wSettings "i-1" wMetrics).length = 1 ↔
      wSettings.ec2_cpu_duration_minutes / 5 ≤
        wMetrics.countP (fun m => decide (wSettings.ec2_cpu_threshold < m.maximum.getD 0))) := by
  have hm : wMetrics ≠ [] := by decide
  exact ⟨hm, (ec2_count_boundary wSettings "i-1" wMetrics).1 hm⟩

lemma mem_ec2CheckInstance {s : Settings} {instance_id : String}
    {metrics : List Datapoint} {inc : Incident}
    (h : inc ∈ ec2CheckInstance s instance_id metrics) :
    inc = ec2Incident s instance_id metrics := by
  unfold ec2CheckInstance at h
  by_cases he : metrics.isEmpty = true
  · simp [he] at h
  · by_cases hc : s.ec2_cpu_duration_minutes / 5 ≤
        metrics.countP (fun m => decide (s.ec2_cpu_threshold < m.maximum.getD 0))
    · simpa [he, hc] using h
    · simp [he, hc] at h

lemma ec2Incident_severity (s : Settings) (instance_id : String)
    (metrics : List Datapoint) :
    (ec2Incident s instance_id metrics).severity =
      if 98 < listMax (metrics.map (fun m => m.maximum.getD 0)) then "HIGH"
      else "MEDIUM" := rfl

/-- C3: every incident the EC2 detector emits has severity HIGH iff the
peak Maximum over the series strictly exceeds 98 (so a peak of exactly 98
yields MEDIUM), and its severity is always one of HIGH and MEDIUM. -/
theorem ec2_severity_boundary (s : Settings) (instance_id : String)
    (metrics : List Datapoint) (inc : Incident)
    (h : inc ∈ ec2CheckInstance s instance_id metrics) :
    (inc.severity = "HIGH" ↔ 98 < listMax (metrics.map (fun m => m.maximum.getD 0))) ∧
    (inc.severity = "HIGH" ∨ inc.severity = "MEDIUM") := by
  obtain rfl := mem_ec2CheckInstance h
  rw [ec2Incident_severity]
  split <;> simp_all

theorem ec2_severity_boundary_witness :
    ec2Incident wSettings "i-1" wMetrics ∈ ec2CheckInstance wSettings "i-1" wMetrics ∧
    ((ec2Incident wSettings "i-1" wMetrics).severity = "HIGH" ↔
      98 < listMax (wMetrics.map (fun m => m.maximum.getD 0))) := by
  have heq : ec2CheckInstance wSettings "i-1" wMetrics =
      [ec2Incident wSettings "i-1" wMetrics] := by rfl
  have h : ec2Incident wSettings "i-1" wMetrics ∈
      ec2CheckInstance wSettings "i-1" wMetrics := by
    rw [heq]; exact List.mem_singleton_self _
  exact ⟨h, (ec2_severity_boundary wSettings "i-1" wMetrics _ h).1⟩

/-- C9: when `ec2_cpu_duration_minutes < 5`, the required-datapoint count
`ec2_cpu_duration_minutes // 5` is 0, so the EC2 detector emits one
incident for every instance with a non-empty series — even when no
datapoint's Maximum exceeds the threshold. -/
theorem ec2_required_zero (s : Settings) (instance_id : String)
    (metrics : List Datapoint) (hdur : s.ec2_cpu_duration_minutes < 5)
    (hm : metrics ≠ []) :
    s.ec2_cpu_duration_minutes / 5 = 0 ∧
    (ec2CheckInstance s instance_id metrics).length = 1 := by
  have h0 : s.ec2_cpu_duration_minutes / 5 = 0 := Nat.div_eq_of_lt hdur
  refine ⟨h0, (ec2CheckInstance_length s instance_id metrics hm).2 ?_⟩
  rw [h0]
  exact Nat.zero_le _

/-- A configuration with a sub-sample-period duration, and a series none
of whose datapoints exceeds the (default 95.0) threshold. -/
def wLowSettings : Settings := { ec2_cpu_duration_minutes := 3 }

def wQuietMetrics : List Datapoint := [⟨some 10, some 10, none⟩]

theorem ec2_required_zero_witness :
    (wLowSettings.ec2_cpu_duration_minutes < 5 ∧ wQuietMetrics ≠ []) ∧
    (wLowSettings.ec2_cpu_duration_minutes / 5 = 0 ∧
     (ec2CheckInstance wLowSettings "i-1" wQuietMetrics).length = 1) := by
  have h1 : wLowSettings.ec2_cpu_duration_minutes < 5 := by decide
  have h2 : wQuietMetrics ≠ [] := by decide
  exact ⟨⟨h1, h2⟩, ec2_required_zero wLowSettings "i-1" wQuietMetrics h1 h2⟩

lemma mem_lambdaCheckFunction {s : Settings} {function_name : String}
    {error_metrics duration_metrics : List Datapoint} {inc : Incident}
    (h : inc ∈ lambdaCheckFunction s function_name error_metrics duration_metrics) :
    inc = lambdaIncident s function_name error_metrics duration_metrics := by
  unfold lambdaCheckFunction at h
  by_cases he : error_metrics.isEmpty = true
  · simp [he] at h
  · by_cases hc : (s.lambda_error_threshold : ℚ) ≤
        (error_metrics.map (fun m => m.sum.getD 0)).sum
    · simpa [he, hc] using h
    · simp [he, hc] at h

lemma lambdaCheckFunction_length (s : Settings) (function_name : String)
    (error_metrics duration_metrics : List Datapoint) (hm : error_metrics ≠ []) :
    (lambdaCheckFunction s function_name error_metrics duration_metrics).length = 1 ↔
      (s.lambda_error_threshold : ℚ) ≤ (error_metrics.map (fun m => m.sum.getD 0)).sum := by
  unfold lambdaCheckFunction
  rw [if_neg (by simpa using hm)]
  by_cases hc : (s.lambda_error_threshold : ℚ) ≤
      (error_metrics.map (fun m => m.sum.getD 0)).sum <;>
    simp [hc]

lemma lambdaIncident_severity (s : Settings) (function_name : String)
    (error_metrics duration_metrics : List Datapoint) :
    (lambdaIncident s function_name error_metrics duration_metrics).severity =
      if (s.lambda_timeout_threshold_ms : ℚ) < lambdaMaxDuration duration_metrics then "HIGH"
      else "MEDIUM" := rfl

/-- C4: for a non-empty error series, the Lambda detector emits an
incident iff the sum of the `Sum` statistics is at least
`lambda_error_threshold` (inclusive boundary), and the emitted incident's
severity is HIGH iff the maximum of the duration series (0 when that
series is empty) strictly exceeds `lambda_timeout_threshold_ms`, otherwise
MEDIUM. -/
theorem lambda_error_boundary (s : Settings) (function_name : String)
    (error_metrics duration_metrics : List Datapoint) :
    (error_metrics ≠ [] →
      ((lambdaCheckFunction s function_name error_metrics duration_metrics).length = 1 ↔
        (s.lambda_error_threshold : ℚ) ≤ (error_metrics.map (fun m => m.sum.getD 0)).sum)) ∧
    (∀ inc ∈ lambdaCheckFunction s function_name error_metrics duration_metrics,
      (inc.severity = "HIGH" ↔
        (s.lambda_timeout_threshold_ms : ℚ) < lambdaMaxDuration duration_metrics) ∧
      (inc.severity = "HIGH" ∨ inc.severity = "MEDIUM")) := by
  refine ⟨fun hm => lambdaCheckFunction_length s function_name _ _ hm, fun inc h => ?_⟩
  obtain rfl := mem_lambdaCheckFunction h
  rw [lambdaIncident_severity]
  split <;> simp_all

/-- An error series whose total is exactly the default threshold 5, and a
duration series whose maximum 30000 ms exceeds the default timeout
threshold 25000 ms. -/
def wErrMetrics : List Datapoint := [⟨none, none, some 5⟩]

def wDurMetrics : List Datapoint := [⟨some 30000, none, none⟩]

theorem lambda_error_boundary_witness :
    wErrMetrics ≠ [] ∧
    ((lambdaCheckFunction wSettings "fn" wErrMetrics wDurMetrics).length = 1 ↔
      (wSettings.lambda_error_threshold : ℚ) ≤
        (wErrMetrics.map (fun m => m.sum.getD 0)).sum) ∧
    lambdaIncident wSettings "fn" wErrMetrics wDurMetrics ∈
      lambdaCheckFunction wSettings "fn" wErrMetrics wDurMetrics ∧
    ((lambdaIncident wSettings "fn" wErrMetrics wDurMetrics).severity = "HIGH" ↔
      (wSettings.lambda_timeout_threshold_ms : ℚ) < lambdaMaxDuration wDurMetrics) := by
  have hm : wErrMetrics ≠ [] := by decide
  have heq : lambdaCheckFunction wSettings "fn" wErrMetrics wDurMetrics =
      [lambdaIncident wSettings "fn" wErrMetrics wDurMetrics] := by
    simp [lambdaCheckFunction, wErrMetrics, wSettings]
  have hmem : lambdaIncident wSettings "fn" wErrMetrics wDurMetrics ∈
      lambdaCheckFunction wSettings "fn" wErrMetrics wDurMetrics := by
    rw [heq]; exact List.mem_singleton_self _
  exact ⟨hm, (lambda_error_boundary wSettings "fn" wErrMetrics wDurMetrics).1 hm,
    hmem, ((lambda_error_boundary wSettings "fn" wErrMetrics wDurMetrics).2 _ hmem).1⟩

lemma mem_bedrockCheckModel {s : Settings} {model_id : String}
    {token_metrics invocation_metrics : List Datapoint} {inc : Incident}
    (h : inc ∈ bedrockCheckModel s model_id token_metrics invocation_metrics) :
    inc = bedrockIncident s model_id token_metrics invocation_metrics := by
  unfold bedrockCheckModel at h
  by_cases he : token_metrics.isEmpty = true
  · simp [he] at h
  · by_cases hc : (s.bedrock_token_threshold : ℚ) ≤
        (token_metrics.map (fun m => m.sum.getD 0)).sum
    · simpa [he, hc] using h
    · simp [he, hc] at h

lemma mem_s3CheckResource {s : Settings} {resource_name : String}
    {events : List S3Event} {inc : Incident}
    (h : inc ∈ s3CheckResource s resource_name events) :
    inc = s3Incident s resource_name events := by
  unfold s3CheckResource at h
  by_cases hc : 1 ≤ events.length
  · simpa [hc] using h
  · simp [hc] at h

/-- C5 (amended): every incident id is the rule slug followed by `-` and a
resource-derived suffix, but the sanitization differs per detector and
never lower-cases: EC2 and Lambda use the raw identifier unmodified,
Bedrock replaces `:` and `.` with `-` without truncation, and only S3
replaces `:` and `/` with `-` and truncates to 50 characters. -/
theorem incident_id_shapes :
    (∀ (s : Settings) (i : String) (m : List Datapoint) (inc : Incident),
        inc ∈ ec2CheckInstance s i m → inc.id = "ec2-cpu-spike-" ++ i) ∧
    (∀ (s : Settings) (f : String) (em dm : List Datapoint) (inc : Incident),
        inc ∈ lambdaCheckFunction s f em dm → inc.id = "lambda-errors-" ++ f) ∧
    (∀ (s : Settings) (mid : String) (tm im : List Datapoint) (inc : Incident),
        inc ∈ bedrockCheckModel s mid tm im →
          inc.id = "bedrock-token-usage-" ++ ((mid.replace ":" "-").replace "." "-")) ∧
    (∀ (s : Settings) (name : String) (evs : List S3Event) (inc : Incident),
        inc ∈ s3CheckResource s name evs →
          inc.id = "s3-access-denied-" ++ (((name.replace ":" "-").replace "/" "-").take 50)) := by
  refine ⟨fun s i m inc h => ?_, fun s f em dm inc h => ?_,
    fun s mid tm im inc h => ?_, fun s name evs inc h => ?_⟩
  · obtain rfl := mem_ec2CheckInstance h; rfl
  · obtain rfl := mem_lambdaCheckFunction h; rfl
  · obtain rfl := mem_bedrockCheckModel h; rfl
  · obtain rfl := mem_s3CheckResource h; rfl

theorem incident_id_shapes_witness :
    ec2Incident wSettings "i-1" wMetrics ∈ ec2CheckInstance wSettings "i-1" wMetrics ∧
    (ec2Incident wSettings "i-1" wMetrics).id = "ec2-cpu-spike-" ++ "i-1" := by
  have heq : ec2CheckInstance wSettings "i-1" wMetrics =
      [ec2Incident wSettings "i-1" wMetrics] := by rfl
  have h : ec2Incident wSettings "i-1" wMetrics ∈
      ec2CheckInstance wSettings "i-1" wMetrics := by
    rw [heq]; exact List.mem_singleton_self _
  exact ⟨h, incident_id_shapes.1 wSettings "i-1" wMetrics _ h⟩

/-- C5 counterexample: running the EC2 detector on instance "i-X" (the
end-to-end scenario of §8) yields the id "ec2-cpu-spike-i-X" — the raw
instance id, not the lower-cased "ec2-cpu-spike-i-x" the claim requires. -/
theorem id_sanitization_refuted :
    (ec2CheckInstance wSettings "i-X" wMetrics).map Incident.id = ["ec2-cpu-spike-i-X"] ∧
    "ec2-cpu-spike-i-X" ≠ "ec2-cpu-spike-i-x" := by
  constructor
  · have heq : ec2CheckInstance wSettings "i-X" wMetrics =
        [ec2Incident wSettings "i-X" wMetrics] := by rfl
    rw [heq]; rfl
  · decide

lemma getLast?_append_singleton {α : Type} (l : List α) (x : α) :
    (l ++ [x]).getLast? = some x := by
  rw [List.getLast?_concat]

/-- C6 (amended): `collect_for_incident` dispatches by substring
containment of the rule slug in the incident id (Python `in`, checked in
the order EC2, Lambda, Bedrock, S3) — not by prefix matching; for an
incident whose id contains no rule slug as a substring the returned
mapping is exactly the single `incident.json` entry; the `incident.json`
snapshot entry is always present and always written last. -/
theorem collect_dispatch (output_dir : String) (inc : Incident) :
    ((strIn "ec2-cpu-spike" inc.id = false ∧ strIn "lambda-errors" inc.id = false ∧
      strIn "bedrock-token-usage" inc.id = false ∧ strIn "s3-access-denied" inc.id = false) →
      collect_for_incident output_dir inc =
        [("incident.json", output_dir ++ "/" ++ inc.id ++ "/" ++ "incident.json")]) ∧
    (collect_for_incident output_dir inc).getLast? =
      some ("incident.json", output_dir ++ "/" ++ inc.id ++ "/" ++ "incident.json") ∧
    ("incident.json", output_dir ++ "/" ++ inc.id ++ "/" ++ "incident.json") ∈
      collect_for_incident output_dir inc := by
  refine ⟨fun ⟨h1, h2, h3, h4⟩ => ?_, ?_, ?_⟩
  · unfold collect_for_incident
    simp [h1, h2, h3, h4, evidenceEntry]
  · unfold collect_for_incident
    exact getLast?_append_singleton _ _
  · unfold collect_for_incident
    exact List.mem_append_right _ (List.mem_singleton_self _)

/-- An incident with an id matching no rule slug at all. -/
def wCustomIncident : Incident :=
  { id := "custom-thing", title := "t", severity := "LOW", resource := "r",
    description := "d", suggested_fix := "f", evidence_files := [] }

theorem collect_dispatch_witness :
    (strIn "ec2-cpu-spike" wCustomIncident.id = false ∧
     strIn "lambda-errors" wCustomIncident.id = false ∧
     strIn "bedrock-token-usage" wCustomIncident.id = false ∧
     strIn "s3-access-denied" wCustomIncident.id = false) ∧
    collect_for_incident "./evidence" wCustomIncident =
      [("incident.json", "./evidence" ++ "/" ++ wCustomIncident.id ++ "/" ++ "incident.json")] := by
  have h : strIn "ec2-cpu-spike" wCustomIncident.id = false ∧
      strIn "lambda-errors" wCustomIncident.id = false ∧
      strIn "bedrock-token-usage" wCustomIncident.id = false ∧
      strIn "s3-access-denied" wCustomIncident.id = false := ⟨rfl, rfl, rfl, rfl⟩
  exact ⟨h, (collect_dispatch "./evidence" wCustomIncident).1 h⟩

/-- An incident whose id starts with no rule slug but contains one in the
middle. -/
def wTrickIncident : Incident :=
  { id := "my-ec2-cpu-spike", title := "t", severity := "HIGH", resource := "i-1",
    description := "d", suggested_fix := "f", evidence_files := [] }

/-- C6 counterexample: the id "my-ec2-cpu-spike" starts with none of the
four rule slugs (no recognized rule prefix), yet `collect_for_incident`
returns two entries, because the dispatch tests substring containment
(`"ec2-cpu-spike" in incident.id`), not prefixes. -/
theorem collect_prefix_dispatch_refuted :
    (¬ ("ec2-cpu-spike".data <+: "my-ec2-cpu-spike".data) ∧
     ¬ ("lambda-errors".data <+: "my-ec2-cpu-spike".data) ∧
     ¬ ("bedrock-token-usage".data <+: "my-ec2-cpu-spike".data) ∧
     ¬ ("s3-access-denied".data <+: "my-ec2-cpu-spike".data)) ∧
    (collect_for_incident "./evidence" wTrickIncident).length = 2 := by
  refine ⟨⟨?_, ?_, ?_, ?_⟩, rfl⟩ <;> decide

/-- C7 (amended): a scan always yields an incident list; only a failure
while constructing the AWS clients is surfaced as the distinguishable
`typer.Exit(1)` outcome, while transport failures (including
authentication failures) during the fetches are caught at the source
boundary and become an ordinary (here: empty) incident list. -/
theorem scan_outcome_taxonomy (s : Settings) (t : TransportData) (msg : String)
    (a : AwsError) :
    monitorScan (Except.error msg) s t = ScanOutcome.exitError 1 ∧
    monitorScan (Except.ok ()) s (constFailTransport a) = ScanOutcome.incidents [] ∧
    monitorScan (Except.ok ()) s t =
      ScanOutcome.incidents (run_all_detectors s (resolveSources t)) := by
  exact ⟨rfl, rfl, rfl⟩

/-- C7 counterexample: with healthy client construction, a transport whose
every call fails with `NoCredentialsError` (an authentication failure)
produces the outcome `incidents []` — the very same outcome as a healthy
transport over a quiet account, so the authentication failure is folded
into an empty result indistinguishable from "zero incidents found".  The
per-getter boundary (`get_ec2_cpu_metrics`) likewise returns the same
empty series for a failed call as for a successful empty one. -/
theorem auth_failure_indistinguishable :
    monitorScan (Except.ok ()) wSettings (constFailTransport AwsError.noCredentials) =
      ScanOutcome.incidents [] ∧
    monitorScan (Except.ok ()) wSettings emptyTransport = ScanOutcome.incidents [] ∧
    CloudWatchSource.get_ec2_cpu_metrics (Except.error AwsError.noCredentials) =
      CloudWatchSource.get_ec2_cpu_metrics (Except.ok []) := by
  exact ⟨rfl, rfl, rfl⟩

lemma flatMap_eq_nil {α β : Type} (l : List α) (f : α → List β) (h : ∀ a, f a = []) :
    l.flatMap f = [] := by
  induction l with
  | nil => rfl
  | cons a as ih => simp [List.flatMap_cons, h a, ih]

/-- Sources that return an empty series for every metric query and an
empty list for every event query (the resource inventories are arbitrary). -/
def emptySeriesSources (insts fns : List String) : SourceData :=
  { instances := insts
    cpuMetrics := fun _ => []
    functions := fns
    lambdaErrors := fun _ => []
    lambdaDurations := fun _ => []
    bedrockTokens := fun _ => []
    bedrockInvocations := fun _ => []
    s3Events := [] }

/-- C8: every detector of the roster, run against sources that return
empty series for every metric query and an empty event list, returns the
empty incident list, and so does the orchestrator — no false positives on
absent data. -/
theorem detectors_no_false_positives (s : Settings) (insts fns : List String) :
    EC2CPUSpikeDetector.detect s (emptySeriesSources insts fns) = [] ∧
    LambdaErrorDetector.detect s (emptySeriesSources insts fns) = [] ∧
    BedrockTokenUsageDetector.detect s (emptySeriesSources insts fns) = [] ∧
    S3AccessDeniedDetector.detect s (emptySeriesSources insts fns) = [] ∧
    DynamoDBThrottleDetector.detect = ([] : List Incident) ∧
    run_all_detectors s (emptySeriesSources insts fns) = [] := by
  have h1 : EC2CPUSpikeDetector.detect s (emptySeriesSources insts fns) = [] :=
    flatMap_eq_nil _ _ (fun _ => rfl)
  have h2 : LambdaErrorDetector.detect s (emptySeriesSources insts fns) = [] :=
    flatMap_eq_nil _ _ (fun _ => rfl)
  have h3 : BedrockTokenUsageDetector.detect s (emptySeriesSources insts fns) = [] :=
    flatMap_eq_nil _ _ (fun _ => rfl)
  have h4 : S3AccessDeniedDetector.detect s (emptySeriesSources insts fns) = [] := rfl
  refine ⟨h1, h2, h3, h4, rfl, ?_⟩
  unfold run_all_detectors
  rw [h1, h2, h3, h4]
  rfl

lemma severity_mem_ec2 {s : Settings} {instance_id : String}
    {metrics : List Datapoint} {inc : Incident}
    (h : inc ∈ ec2CheckInstance s instance_id metrics) :
    inc.severity = "MEDIUM" ∨ inc.severity = "HIGH" := by
  obtain rfl := mem_ec2CheckInstance h
  rw [ec2Incident_severity]
  split
  · exact Or.inr rfl
  · exact Or.inl rfl

lemma severity_mem_lambda {s : Settings} {function_name : String}
    {error_metrics duration_metrics : List Datapoint} {inc : Incident}
    (h : inc ∈ lambdaCheckFunction s function_name error_metrics duration_metrics) :
    inc.severity = "MEDIUM" ∨ inc.severity = "HIGH" := by
  obtain rfl := mem_lambdaCheckFunction h
  rw [lambdaIncident_severity]
  split
  · exact Or.inr rfl
  · exact Or.inl rfl

lemma severity_mem_bedrock {s : Settings} {model_id : String}
    {token_metrics invocation_metrics : List Datapoint} {inc : Incident}
    (h : inc ∈ bedrockCheckModel s model_id token_metrics invocation_metrics) :
    inc.severity = "MEDIUM" ∨ inc.severity = "HIGH" := by
  obtain rfl := mem_bedrockCheckModel h
  exact Or.inr rfl

lemma severity_mem_s3 {s : Settings} {resource_name : String}
    {events : List S3Event} {inc : Incident}
    (h : inc ∈ s3CheckResource s resource_name events) :
    inc.severity = "MEDIUM" ∨ inc.severity = "HIGH" := by
  obtain rfl := mem_s3CheckResource h
  exact Or.inr rfl

/-- C10: every incident `run_all_detectors` returns has severity MEDIUM or
HIGH; the declared severities LOW and CRITICAL are never produced by any
detector of the roster. -/
theorem run_all_severity_domain (s : Settings) (d : SourceData) (inc : Incident)
    (h : inc ∈ run_all_detectors s d) :
    inc.severity = "MEDIUM" ∨ inc.severity = "HIGH" := by
  unfold run_all_detectors at h
  rw [runDetectorBatch_cons_ok, runDetectorBatch_cons_ok, runDetectorBatch_cons_ok,
    runDetectorBatch_cons_ok, runDetectorBatch_cons_ok] at h
  simp only [List.mem_append] at h
  rcases h with h | h | h | h | h
  · unfold EC2CPUSpikeDetector.detect at h
    rw [List.mem_flatMap] at h
    obtain ⟨i, -, hmem⟩ := h
    exact severity_mem_ec2 hmem
  · unfold LambdaErrorDetector.detect at h
    rw [List.mem_flatMap] at h
    obtain ⟨f, -, hmem⟩ := h
    exact severity_mem_lambda hmem
  · unfold BedrockTokenUsageDetector.detect at h
    rw [List.mem_flatMap] at h
    obtain ⟨m, -, hmem⟩ := h
    exact severity_mem_bedrock hmem
  · unfold S3AccessDeniedDetector.detect at h
    rw [List.mem_flatMap] at h
    obtain ⟨g, -, hmem⟩ := h
    exact severity_mem_s3 hmem
  · simp [DynamoDBThrottleDetector.detect, runDetectorBatch] at h

/-- Concrete sources on which the roster produces an incident (the EC2
end-to-end scenario data; everything else quiet). -/
def wSourceData : SourceData :=
  { instances := ["i-1"]
    cpuMetrics := fun _ => wMetrics
    functions := []
    lambdaErrors := fun _ => []
    lambdaDurations := fun _ => []
    bedrockTokens := fun _ => []
    bedrockInvocations := fun _ => []
    s3Events := [] }

theorem run_all_severity_domain_witness :
    ec2Incident wSettings "i-1" wMetrics ∈ run_all_detectors wSettings wSourceData ∧
    ((ec2Incident wSettings "i-1" wMetrics).severity = "MEDIUM" ∨
     (ec2Incident wSettings "i-1" wMetrics).severity = "HIGH") := by
  have heq : run_all_detectors wSettings wSourceData =
      [ec2Incident wSettings "i-1" wMetrics] := by rfl
  have h : ec2Incident wSettings "i-1" wMetrics ∈
      run_all_detectors wSettings wSourceData := by
    rw [heq]; exact List.mem_singleton_self _
  exact ⟨h, run_all_severity_domain wSettings wSourceData _ h⟩
